import Mathlib

/-!
Verification of the event-detection state machine of `monitor_chzzk.py`
(the `process_streamer` function, lines 246-317), shallowly embedded in Lean.

The Python code works on loosely typed dictionaries; the embedding models
the persisted per-channel state and the fetched observation as structures
with optional fields, Python truthiness for strings via `pyTruthy`, and the
loosely typed `viewers` field via `PyVal` (a number, modelled as an integer,
or a non-numeric value such as a string).
-/

namespace ChzzkWatcher

/-- A value found in the loosely typed `viewers` field of an observation:
either a number (Python `int`/`float`, modelled as an integer) or a
non-numeric value such as a string (rejected by the `isinstance` check). -/
inductive PyVal where
  | num (n : Int)
  | str (s : String)
deriving DecidableEq, Repr

/-- Persisted per-channel state (`state[streamer_key]` in the source, field
names `is_live`, `title`, `category`, `viewers`, `passed_thresholds`). -/
structure ChannelState where
  is_live : Bool
  title : Option String
  category : Option String
  viewers : Option PyVal
  passed_thresholds : List Int
deriving DecidableEq, Repr

/-- One fetched snapshot (`current` in the source, the result of
`fetch_live_info`): `is_live` defaults to false when absent, the other
fields may be missing (`none`) or, for `viewers`, non-numeric. -/
structure Observation where
  is_live : Bool
  title : Option String
  category : Option String
  viewers : Option PyVal
deriving DecidableEq, Repr

/-- Semantic events appended to the `events` list of `process_streamer`
(tags `start`, `end`, `title_change`, `category_change`,
`threshold_cross`). -/
inductive Event where
  | start
  | end_
  | title_change
  | category_change
  | threshold_cross (th : Int)
deriving DecidableEq, Repr

/-- Python truthiness of an optional string: `None` and `""` are falsy. -/
def pyTruthy : Option String → Bool
  | none => false
  | some s => s ≠ ""

/-- Python `a or b` on optional strings: yields `a` when truthy, else `b`. -/
def pyOr (a b : Option String) : Option String :=
  if pyTruthy a then a else b

/-- Python `sorted` on a list of integers (ascending, stable). -/
def sortInts (l : List Int) : List Int :=
  l.insertionSort (fun a b => a ≤ b)

/-- The `to_pass` list of `process_streamer`: thresholds reached by the
current viewer count and not yet in the passed set, in threshold-list
order. -/
def toPass (thresholds : List Int) (v : Int) (passed : List Int) : List Int :=
  thresholds.filter (fun th => decide (v ≥ th ∧ th ∉ passed))

/-- The initial `new_state` dictionary built at the top of
`process_streamer` (lines 254-261): liveness and viewers taken from the
observation, title and category with Python `or` fallback to the previous
state, passed thresholds carried over. -/
def initState (last : ChannelState) (current : Observation) : ChannelState :=
  { is_live := current.is_live
    title := pyOr current.title last.title
    category := pyOr current.category last.category
    viewers := current.viewers
    passed_thresholds := last.passed_thresholds }

/-- Start/end event detection (lines 264-272). -/
def livenessEvents (lastLive newLive : Bool) : List Event :=
  if lastLive then
    if newLive = false then [Event.end_] else []
  else
    if newLive = true then [Event.start] else []

/-- Recognizer for the start event, mirroring
`any(ev["type"] == "start" for ev in events)`. -/
def isStart : Event → Bool
  | Event.start => true
  | _ => false

/-- Title and category change detection, only when both the previous state
and the new state are live (lines 274-283). -/
def contentStep (last : ChannelState) (current : Observation)
    (s : ChannelState) (ev : List Event) : ChannelState × List Event :=
  if s.is_live = true ∧ last.is_live = true then
    let p :=
      if pyTruthy current.title = true ∧ current.title ≠ last.title then
        ({ s with title := current.title }, ev ++ [Event.title_change])
      else (s, ev)
    if pyTruthy current.category = true ∧ current.category ≠ last.category then
      ({ p.1 with category := current.category }, p.2 ++ [Event.category_change])
    else p
  else (s, ev)

/-- Start-event field seeding (lines 285-290): when a start was emitted,
title and category are re-seeded from the observation with `or` fallback,
and the passed-threshold list is reset to empty. -/
def startSeed (current : Observation) (ev : List Event)
    (s : ChannelState) : ChannelState :=
  if ev.any isStart then
    { s with
        title := pyOr current.title s.title
        category := pyOr current.category s.category
        passed_thresholds := [] }
  else s

/-- Viewer threshold detection (lines 292-305): only when the new state is
live and the observed viewer count is a number; the passed list becomes the
sorted union and one event per newly crossed threshold is appended in
ascending order. -/
def thresholdStep (thresholds : List Int) (current : Observation)
    (s : ChannelState) (ev : List Event) : ChannelState × List Event :=
  if s.is_live = true then
    match current.viewers with
    | some (PyVal.num v) =>
        let tp := toPass thresholds v s.passed_thresholds
        if tp ≠ [] then
          ({ s with passed_thresholds := sortInts ((s.passed_thresholds ++ tp).dedup) },
            ev ++ (sortInts tp).map Event.threshold_cross)
        else (s, ev)
    | _ => (s, ev)
  else (s, ev)

/-- The Event Detector: the pure core of `process_streamer`
(lines 254-305), producing the emitted event list and the next state. -/
def detect (last : ChannelState) (current : Observation)
    (thresholds : List Int) : List Event × ChannelState :=
  let s1 := initState last current
  let ev1 := livenessEvents last.is_live s1.is_live
  let p2 := contentStep last current s1 ev1
  let s3 := startSeed current p2.2 p2.1
  let p4 := thresholdStep thresholds current s3 p2.2
  (p4.2, p4.1)

/-! Characterization of `detect`: explicit forms of the emitted event list
and of each field of the next state, proved equal to the pipeline above. -/

/-- A start event is emitted exactly when the previous state was not live
and the observation is live. -/
def startEmitted (lastLive newLive : Bool) : Bool :=
  !lastLive && newLive

/-- The passed-threshold list against which crossings are checked: reset to
empty when a start event is emitted, otherwise the previous list. -/
def basePassed (last : ChannelState) (c : Observation) : List Int :=
  if startEmitted last.is_live c.is_live then [] else last.passed_thresholds

/-- Explicit form of the next passed-threshold list. -/
def nextPassed (last : ChannelState) (c : Observation) (t : List Int) : List Int :=
  if c.is_live = true then
    match c.viewers with
    | some (PyVal.num v) =>
        let tp := toPass t v (basePassed last c)
        if tp ≠ [] then sortInts ((basePassed last c ++ tp).dedup)
        else basePassed last c
    | _ => basePassed last c
  else basePassed last c

/-- Explicit form of the title-change event list (empty or a singleton). -/
def titleEvents (last : ChannelState) (c : Observation) : List Event :=
  if c.is_live = true ∧ last.is_live = true ∧ pyTruthy c.title = true ∧
      c.title ≠ last.title then
    [Event.title_change]
  else []

/-- Explicit form of the category-change event list. -/
def categoryEvents (last : ChannelState) (c : Observation) : List Event :=
  if c.is_live = true ∧ last.is_live = true ∧ pyTruthy c.category = true ∧
      c.category ≠ last.category then
    [Event.category_change]
  else []

/-- Explicit form of the threshold-cross event list. -/
def thresholdEvents (last : ChannelState) (c : Observation)
    (t : List Int) : List Event :=
  if c.is_live = true then
    match c.viewers with
    | some (PyVal.num v) =>
        (sortInts (toPass t v (basePassed last c))).map Event.threshold_cross
    | _ => []
  else []

theorem pyOr_truthy {a b : Option String} (h : pyTruthy a = true) :
    pyOr a b = a := by
  simp [pyOr, h]

theorem pyOr_pyOr (a b : Option String) : pyOr a (pyOr a b) = pyOr a b := by
  by_cases h : pyTruthy a = true <;> simp [pyOr, h]

theorem detect_eq (l : ChannelState) (c : Observation) (t : List Int) :
    detect l c t =
      (livenessEvents l.is_live c.is_live ++ titleEvents l c ++
        categoryEvents l c ++ thresholdEvents l c t,
       { is_live := c.is_live
         title := pyOr c.title l.title
         category := pyOr c.category l.category
         viewers := c.viewers
         passed_thresholds := nextPassed l c t }) := by
  cases hl : l.is_live <;> cases hc : c.is_live
  · -- offline, stays offline
    simp [detect, initState, livenessEvents, contentStep, startSeed,
      thresholdStep, titleEvents, categoryEvents, thresholdEvents,
      nextPassed, basePassed, startEmitted, hl, hc]
  · -- start
    simp only [detect, initState, livenessEvents, contentStep, startSeed,
      thresholdStep, titleEvents, categoryEvents, thresholdEvents,
      nextPassed, basePassed, startEmitted, isStart, hl, hc, pyOr_pyOr]
    cases hv : c.viewers with
    | none => simp [isStart, pyOr_pyOr]
    | some pv =>
      cases pv with
      | num v =>
        by_cases htp : toPass t v [] = [] <;>
          simp [htp, isStart, pyOr_pyOr, sortInts, List.insertionSort]
      | str s => simp [isStart, pyOr_pyOr]
  · -- end
    simp [detect, initState, livenessEvents, contentStep, startSeed,
      thresholdStep, titleEvents, categoryEvents, thresholdEvents,
      nextPassed, basePassed, startEmitted, isStart, hl, hc]
  · -- continuously live
    by_cases ht : pyTruthy c.title = true ∧ c.title ≠ l.title <;>
      by_cases hcat : pyTruthy c.category = true ∧ c.category ≠ l.category <;>
        (simp only [detect, initState, livenessEvents, contentStep, startSeed,
          thresholdStep, titleEvents, categoryEvents, thresholdEvents,
          nextPassed, basePassed, startEmitted, isStart, hl, hc, ht, hcat,
          pyOr_truthy]
         cases hv : c.viewers with
         | none => simp [isStart, ht, hcat, pyOr_truthy]
         | some pv =>
           cases pv with
           | num v =>
             by_cases htp : toPass t v l.passed_thresholds = [] <;>
               simp [htp, isStart, ht, hcat, pyOr_truthy,
                 sortInts, List.insertionSort]
           | str s => simp [isStart, ht, hcat, pyOr_truthy])

theorem mem_sortInts {a : Int} {l : List Int} : a ∈ sortInts l ↔ a ∈ l :=
  List.mem_insertionSort _

theorem sorted_sortInts (l : List Int) :
    List.Sorted (fun a b : Int => a ≤ b) (sortInts l) :=
  List.sorted_insertionSort _ l

theorem mem_toPass {th : Int} {t : List Int} {v : Int} {p : List Int} :
    th ∈ toPass t v p ↔ th ∈ t ∧ v ≥ th ∧ th ∉ p := by
  simp [toPass, List.mem_filter, and_assoc]

theorem mem_nextPassed_of_mem_base {th : Int} (l : ChannelState)
    (c : Observation) (t : List Int) (h : th ∈ basePassed l c) :
    th ∈ nextPassed l c t := by
  unfold nextPassed
  split
  · cases hv : c.viewers with
    | none => exact h
    | some pv =>
      cases pv with
      | num v =>
        simp only
        split
        · rw [mem_sortInts, List.mem_dedup]
          exact List.mem_append_left _ h
        · exact h
      | str s => exact h
  · exact h

theorem mem_nextPassed_of_ge {th v : Int} (l : ChannelState)
    (c : Observation) (t : List Int) (hlive : c.is_live = true)
    (hv : c.viewers = some (PyVal.num v)) (htm : th ∈ t) (hge : v ≥ th) :
    th ∈ nextPassed l c t := by
  by_cases hb : th ∈ basePassed l c
  · exact mem_nextPassed_of_mem_base l c t hb
  · have htp : th ∈ toPass t v (basePassed l c) :=
      mem_toPass.mpr ⟨htm, hge, hb⟩
    simp only [nextPassed, hlive, hv, List.ne_nil_of_mem htp, if_true,
      ne_eq, not_false_eq_true]
    rw [mem_sortInts, List.mem_dedup]
    exact List.mem_append_right _ htp

theorem start_mem_detect (l : ChannelState) (c : Observation) (t : List Int) :
    Event.start ∈ (detect l c t).1 ↔
      startEmitted l.is_live c.is_live = true := by
  rw [detect_eq]
  simp only [List.mem_append]
  constructor
  · rintro (((h | h) | h) | h)
    · unfold livenessEvents at h
      unfold startEmitted
      cases hl : l.is_live <;> cases hc : c.is_live <;>
        simp [hl, hc] at h ⊢
    · unfold titleEvents at h
      split at h <;> simp at h
    · unfold categoryEvents at h
      split at h <;> simp at h
    · unfold thresholdEvents at h
      split at h
      · cases hv : c.viewers with
        | none => rw [hv] at h; simp at h
        | some pv =>
          cases pv with
          | num v => rw [hv] at h; simp at h
          | str s => rw [hv] at h; simp at h
      · simp at h
  · intro h
    left; left; left
    unfold startEmitted at h
    unfold livenessEvents
    cases hl : l.is_live <;> cases hc : c.is_live <;>
      simp [hl, hc] at h ⊢

theorem mem_livenessEvents {e : Event} {a b : Bool}
    (h : e ∈ livenessEvents a b) : e = Event.start ∨ e = Event.end_ := by
  unfold livenessEvents at h
  split at h <;> split at h <;> simp at h <;> simp [h]

theorem mem_titleEvents {e : Event} {l : ChannelState} {c : Observation}
    (h : e ∈ titleEvents l c) : e = Event.title_change := by
  unfold titleEvents at h
  split at h
  · exact List.mem_singleton.mp h
  · cases h

theorem mem_categoryEvents {e : Event} {l : ChannelState} {c : Observation}
    (h : e ∈ categoryEvents l c) : e = Event.category_change := by
  unfold categoryEvents at h
  split at h
  · exact List.mem_singleton.mp h
  · cases h

theorem mem_thresholdEvents {e : Event} {l : ChannelState} {c : Observation}
    {t : List Int} (h : e ∈ thresholdEvents l c t) :
    ∃ v th, c.is_live = true ∧ c.viewers = some (PyVal.num v) ∧
      e = Event.threshold_cross th ∧ th ∈ toPass t v (basePassed l c) := by
  unfold thresholdEvents at h
  split at h
  · cases hv : c.viewers with
    | none => rw [hv] at h; simp at h
    | some pv =>
      cases pv with
      | num v =>
        rw [hv] at h
        simp only [List.mem_map] at h
        obtain ⟨th, hth, heq⟩ := h
        rw [mem_sortInts] at hth
        next hlive => exact ⟨v, th, hlive, rfl, heq.symm, hth⟩
      | str s => rw [hv] at h; simp at h
  · simp at h

/-- C1: with previous state offline carrying passed thresholds {100, 300}
and an observation live with 150 viewers, title "T" and category "C", and
thresholds [100, 300, 500], the detector emits exactly [start,
threshold_cross 100] and the next passed-threshold list is [100]: the list
is reset to empty on the start before thresholds are re-evaluated, so the
earlier-session crossings 100 and 300 do not suppress new events. -/
theorem c1_start_resets_thresholds (pt pc : Option String) (pv : Option PyVal) :
    (detect ⟨false, pt, pc, pv, [100, 300]⟩
        ⟨true, some "T", some "C", some (PyVal.num 150)⟩ [100, 300, 500]).1 =
      [Event.start, Event.threshold_cross 100] ∧
    (detect ⟨false, pt, pc, pv, [100, 300]⟩
        ⟨true, some "T", some "C", some (PyVal.num 150)⟩
          [100, 300, 500]).2.passed_thresholds = [100] := by
  have h1 : toPass [100, 300, 500] 150 [] = [100] := by decide
  have h2 : sortInts (([] ++ [100] : List Int).dedup) = [100] := by decide
  constructor
  · rw [detect_eq]
    simp [livenessEvents, titleEvents, categoryEvents, thresholdEvents,
      basePassed, startEmitted, h1]
    decide
  · rw [detect_eq]
    simp [nextPassed, basePassed, startEmitted, h1, h2]
    decide

/-- C1 witness: the theorem instantiated at concrete previous title,
category and viewers fields. -/
theorem c1_start_resets_thresholds_witness :
    (detect ⟨false, none, none, none, [100, 300]⟩
        ⟨true, some "T", some "C", some (PyVal.num 150)⟩ [100, 300, 500]).1 =
      [Event.start, Event.threshold_cross 100] ∧
    (detect ⟨false, none, none, none, [100, 300]⟩
        ⟨true, some "T", some "C", some (PyVal.num 150)⟩
          [100, 300, 500]).2.passed_thresholds = [100] :=
  c1_start_resets_thresholds none none none

/-- C2 counterexample: the claim fails as stated. With previous state
offline and passed thresholds [100] (a crossing from an earlier session),
an observation live with 120 viewers re-emits threshold_cross 100 even
though 100 is in the previous passed-threshold list, because the start
event resets the list before thresholds are evaluated. -/
theorem c2_counterexample :
    (100 : Int) ∈
      (ChannelState.mk false none none none [100]).passed_thresholds ∧
    Event.threshold_cross 100 ∈
      (detect ⟨false, none, none, none, [100]⟩
        ⟨true, none, none, some (PyVal.num 120)⟩ [100]).1 := by
  decide

/-- C2 amended: in every step in which no start event is emitted, the
detector never emits a threshold_cross for a threshold already in the
previous passed-threshold list. (As stated the claim fails: a start resets
the list, so thresholds from an earlier session can be re-emitted.) -/
theorem c2_no_recross_within_session (l : ChannelState) (c : Observation)
    (t : List Int) (th : Int) (hs : Event.start ∉ (detect l c t).1)
    (hmem : th ∈ l.passed_thresholds) :
    Event.threshold_cross th ∉ (detect l c t).1 := by
  have hse : startEmitted l.is_live c.is_live = false := by
    cases h : startEmitted l.is_live c.is_live
    · rfl
    · exact absurd ((start_mem_detect l c t).mpr h) hs
  have hbase : basePassed l c = l.passed_thresholds := by
    simp [basePassed, hse]
  intro hin
  rw [detect_eq] at hin
  simp only [List.mem_append] at hin
  rcases hin with ((h | h) | h) | h
  · rcases mem_livenessEvents h with h2 | h2 <;> cases h2
  · cases mem_titleEvents h
  · cases mem_categoryEvents h
  · obtain ⟨v, th2, _, _, heq, htp⟩ := mem_thresholdEvents h
    injection heq with h3
    subst h3
    rw [hbase] at htp
    exact (mem_toPass.mp htp).2.2 hmem

/-- C2 witness for the amended theorem: a continuously live step with 150
viewers and threshold 100 already passed emits no threshold_cross 100. -/
theorem c2_no_recross_within_session_witness :
    Event.threshold_cross 100 ∉
      (detect ⟨true, none, none, none, [100]⟩
        ⟨true, none, none, some (PyVal.num 150)⟩ [100]).1 :=
  c2_no_recross_within_session ⟨true, none, none, none, [100]⟩
    ⟨true, none, none, some (PyVal.num 150)⟩ [100] 100 (by decide) (by decide)

/-- C8: the next state's viewers field always equals the observation's
viewers field exactly, including becoming absent when the observation
lacks it; viewers is never carried forward from the previous state. -/
theorem c8_viewers_overwritten (l : ChannelState) (c : Observation)
    (t : List Int) : (detect l c t).2.viewers = c.viewers := by
  rw [detect_eq]

/-- C9: in every step in which no start event is emitted (i.e. within a
continuing session, including an end step), the next passed-threshold list
contains every threshold of the previous one: the set only grows by union
with newly crossed thresholds and is never shrunk by an end event. -/
theorem c9_passed_monotone (l : ChannelState) (c : Observation)
    (t : List Int) (h : Event.start ∉ (detect l c t).1) :
    ∀ th ∈ l.passed_thresholds, th ∈ (detect l c t).2.passed_thresholds := by
  have hse : startEmitted l.is_live c.is_live = false := by
    cases h2 : startEmitted l.is_live c.is_live
    · rfl
    · exact absurd ((start_mem_detect l c t).mpr h2) h
  have hbase : basePassed l c = l.passed_thresholds := by
    simp [basePassed, hse]
  intro th hth
  rw [detect_eq]
  exact mem_nextPassed_of_mem_base l c t (hbase ▸ hth)

/-- C9 witness: an end step keeps threshold 100 in the passed list. -/
theorem c9_passed_monotone_witness :
    (100 : Int) ∈
      (detect ⟨true, some "A", none, none, [100]⟩
        ⟨false, none, none, none⟩ [100]).2.passed_thresholds :=
  c9_passed_monotone ⟨true, some "A", none, none, [100]⟩
    ⟨false, none, none, none⟩ [100] (by decide) 100 (by decide)

theorem livenessEvents_shape (a b : Bool) :
    livenessEvents a b = [] ∨ livenessEvents a b = [Event.start] ∨
      livenessEvents a b = [Event.end_] := by
  unfold livenessEvents
  cases a <;> cases b <;> simp

theorem titleEvents_shape (l : ChannelState) (c : Observation) :
    titleEvents l c = [] ∨ titleEvents l c = [Event.title_change] := by
  unfold titleEvents
  split <;> simp

theorem categoryEvents_shape (l : ChannelState) (c : Observation) :
    categoryEvents l c = [] ∨ categoryEvents l c = [Event.category_change] := by
  unfold categoryEvents
  split <;> simp

theorem thresholdEvents_shape (l : ChannelState) (c : Observation)
    (t : List Int) :
    ∃ ths : List Int,
      thresholdEvents l c t = ths.map Event.threshold_cross ∧
      List.Sorted (fun a b : Int => a ≤ b) ths := by
  unfold thresholdEvents
  split
  · cases hv : c.viewers with
    | none => exact ⟨[], rfl, List.sorted_nil⟩
    | some pv =>
      cases pv with
      | num v =>
        exact ⟨sortInts (toPass t v (basePassed l c)), rfl, sorted_sortInts _⟩
      | str s => exact ⟨[], rfl, List.sorted_nil⟩
  · exact ⟨[], rfl, List.sorted_nil⟩

/-- C5: the emitted event sequence always has the fixed shape: at most one
start or end event first, then at most one title change, then at most one
category change, then threshold-cross events whose thresholds are in
ascending numeric order. -/
theorem c5_event_order (l : ChannelState) (c : Observation) (t : List Int) :
    ∃ (e1 e2 e3 : List Event) (ths : List Int),
      (detect l c t).1 = e1 ++ e2 ++ e3 ++ ths.map Event.threshold_cross ∧
      (e1 = [] ∨ e1 = [Event.start] ∨ e1 = [Event.end_]) ∧
      (e2 = [] ∨ e2 = [Event.title_change]) ∧
      (e3 = [] ∨ e3 = [Event.category_change]) ∧
      List.Sorted (fun a b : Int => a ≤ b) ths := by
  obtain ⟨ths, hsh, hs⟩ := thresholdEvents_shape l c t
  refine ⟨livenessEvents l.is_live c.is_live, titleEvents l c,
    categoryEvents l c, ths, ?_, livenessEvents_shape _ _,
    titleEvents_shape _ _, categoryEvents_shape _ _, hs⟩
  rw [detect_eq]
  rw [← hsh]

/-- C6 counterexample: the claim fails as stated. An observation title that
is present but empty (`some ""`) differs from the previous title
`some "A"`, yet no title-change event is emitted and the previous title is
kept, because the source tests Python truthiness (`if new_title and ...`),
under which the empty string counts as absent. -/
theorem c6_counterexample :
    (Option.some "").isSome = true ∧ (some "" : Option String) ≠ some "A" ∧
    Event.title_change ∉
      (detect ⟨true, some "A", none, none, []⟩
        ⟨true, some "", none, none⟩ []).1 ∧
    (detect ⟨true, some "A", none, none, []⟩
      ⟨true, some "", none, none⟩ []).2.title = some "A" := by
  decide

/-- C6 amended: while continuously live, a title-change event is emitted
iff the observation title is present AND non-empty (Python-truthy) and
differs from the previous title; when it is truthy the carried-forward
title becomes the observation title, and when it is absent or empty the
previous title is kept; analogously for category. -/
theorem c6_content_change (l : ChannelState) (c : Observation) (t : List Int)
    (hl : l.is_live = true) (hc : c.is_live = true) :
    (Event.title_change ∈ (detect l c t).1 ↔
      pyTruthy c.title = true ∧ c.title ≠ l.title) ∧
    (pyTruthy c.title = true → (detect l c t).2.title = c.title) ∧
    (pyTruthy c.title = false → (detect l c t).2.title = l.title) ∧
    (Event.category_change ∈ (detect l c t).1 ↔
      pyTruthy c.category = true ∧ c.category ≠ l.category) ∧
    (pyTruthy c.category = true → (detect l c t).2.category = c.category) ∧
    (pyTruthy c.category = false → (detect l c t).2.category = l.category) := by
  refine ⟨?_, ?_, ?_, ?_, ?_, ?_⟩
  · rw [detect_eq]
    simp only [List.mem_append]
    constructor
    · rintro (((h | h) | h) | h)
      · rcases mem_livenessEvents h with h2 | h2 <;> cases h2
      · unfold titleEvents at h
        split at h
        · next hcond => exact ⟨hcond.2.2.1, hcond.2.2.2⟩
        · cases h
      · cases mem_categoryEvents h
      · obtain ⟨v, th, _, _, heq, _⟩ := mem_thresholdEvents h; cases heq
    · rintro ⟨h1, h2⟩
      left; left; right
      unfold titleEvents
      rw [if_pos ⟨hc, hl, h1, h2⟩]
      exact List.mem_singleton.mpr rfl
  · intro h1
    rw [detect_eq]
    exact pyOr_truthy h1
  · intro h1
    rw [detect_eq]
    simp [pyOr, h1]
  · rw [detect_eq]
    simp only [List.mem_append]
    constructor
    · rintro (((h | h) | h) | h)
      · rcases mem_livenessEvents h with h2 | h2 <;> cases h2
      · cases mem_titleEvents h
      · unfold categoryEvents at h
        split at h
        · next hcond => exact ⟨hcond.2.2.1, hcond.2.2.2⟩
        · cases h
      · obtain ⟨v, th, _, _, heq, _⟩ := mem_thresholdEvents h; cases heq
    · rintro ⟨h1, h2⟩
      left; right
      unfold categoryEvents
      rw [if_pos ⟨hc, hl, h1, h2⟩]
      exact List.mem_singleton.mpr rfl
  · intro h1
    rw [detect_eq]
    exact pyOr_truthy h1
  · intro h1
    rw [detect_eq]
    simp [pyOr, h1]

/-- C6 witness: while continuously live, title "A" to "B" emits a
title-change event. -/
theorem c6_content_change_witness :
    Event.title_change ∈
      (detect ⟨true, some "A", none, none, []⟩
        ⟨true, some "B", none, none⟩ []).1 :=
  (c6_content_change ⟨true, some "A", none, none, []⟩
    ⟨true, some "B", none, none⟩ [] rfl rfl).1.mpr (by decide)

/-- The numeric value of the loosely typed viewers field, when it is
present and numeric (the `isinstance(viewers, (int, float))` test). -/
def viewersNum : Option PyVal → Option Int
  | some (PyVal.num n) => some n
  | _ => none

/-- C7: the detector is a total function by construction (a Lean function
over all states, observations — including observations with any subset of
fields absent or a non-numeric viewers value — and threshold lists), and
malformed or missing fields degrade gracefully: a missing or non-numeric
viewers value yields no threshold-cross event and leaves the
passed-threshold list at its base value (previous list, or empty after a
start), and an absent or empty title (resp. category) yields no
title-change (resp. category-change) event and keeps the previous value. -/
theorem c7_total_graceful (l : ChannelState) (c : Observation)
    (t : List Int) :
    (viewersNum c.viewers = none →
      (∀ th, Event.threshold_cross th ∉ (detect l c t).1) ∧
      (detect l c t).2.passed_thresholds = basePassed l c) ∧
    (pyTruthy c.title = false →
      Event.title_change ∉ (detect l c t).1 ∧
      (detect l c t).2.title = l.title) ∧
    (pyTruthy c.category = false →
      Event.category_change ∉ (detect l c t).1 ∧
      (detect l c t).2.category = l.category) := by
  refine ⟨fun hv => ⟨fun th hmem => ?_, ?_⟩,
    fun ht => ⟨fun hmem => ?_, ?_⟩, fun hcat => ⟨fun hmem => ?_, ?_⟩⟩
  · rw [detect_eq] at hmem
    simp only [List.mem_append] at hmem
    rcases hmem with ((h | h) | h) | h
    · rcases mem_livenessEvents h with h2 | h2 <;> cases h2
    · cases mem_titleEvents h
    · cases mem_categoryEvents h
    · obtain ⟨v, th2, _, hvis, _, _⟩ := mem_thresholdEvents h
      rw [hvis] at hv
      cases hv
  · rw [detect_eq]
    show nextPassed l c t = basePassed l c
    unfold nextPassed
    split
    · cases hvis : c.viewers with
      | none => rfl
      | some pv =>
        cases pv with
        | num v => rw [hvis] at hv; cases hv
        | str s => rfl
    · rfl
  · rw [detect_eq] at hmem
    simp only [List.mem_append] at hmem
    rcases hmem with ((h | h) | h) | h
    · rcases mem_livenessEvents h with h2 | h2 <;> cases h2
    · unfold titleEvents at h
      split at h
      · next hcond => rw [hcond.2.2.1] at ht; cases ht
      · cases h
    · cases mem_categoryEvents h
    · obtain ⟨v, th2, _, _, heq, _⟩ := mem_thresholdEvents h; cases heq
  · rw [detect_eq]
    simp [pyOr, ht]
  · rw [detect_eq] at hmem
    simp only [List.mem_append] at hmem
    rcases hmem with ((h | h) | h) | h
    · rcases mem_livenessEvents h with h2 | h2 <;> cases h2
    · cases mem_titleEvents h
    · unfold categoryEvents at h
      split at h
      · next hcond => rw [hcond.2.2.1] at hcat; cases hcat
      · cases h
    · obtain ⟨v, th2, _, _, heq, _⟩ := mem_thresholdEvents h; cases heq
  · rw [detect_eq]
    simp [pyOr, hcat]

/-- C7 witness: a live observation whose viewers field holds a string
emits no threshold-cross event. -/
theorem c7_total_graceful_witness :
    Event.threshold_cross 100 ∉
      (detect ⟨true, none, none, none, []⟩
        ⟨true, none, none, some (PyVal.str "many")⟩ [100]).1 :=
  ((c7_total_graceful ⟨true, none, none, none, []⟩
    ⟨true, none, none, some (PyVal.str "many")⟩ [100]).1 rfl).1 100

/-- C4 counterexample: the claim fails as stated. With previous state
offline carrying a last-observed viewers value and an offline observation
lacking viewers, the next state differs from the previous one: the viewers
field is overwritten with the observation value (here: cleared). -/
theorem c4_counterexample :
    (detect ⟨false, none, none, some (PyVal.num 7), []⟩
      ⟨false, none, none, none⟩ []).2 ≠
      ⟨false, none, none, some (PyVal.num 7), []⟩ := by
  decide

/-- C4 amended: an offline-to-offline step emits no events and is a no-op
on liveness and passed thresholds; the next state equals the previous one
except that title and category are overwritten when the observation
carries truthy values (Python or-fallback) and viewers is always
overwritten with the observation viewers. In particular it is an exact
fixed point whenever the observation adds no truthy title or category and
its viewers value matches the previous one. -/
theorem c4_offline_step (l : ChannelState) (c : Observation) (t : List Int)
    (hl : l.is_live = false) (hc : c.is_live = false) :
    (detect l c t).1 = [] ∧
    (detect l c t).2 =
      { l with
          title := pyOr c.title l.title
          category := pyOr c.category l.category
          viewers := c.viewers } := by
  constructor
  · rw [detect_eq]
    simp [livenessEvents, titleEvents, categoryEvents, thresholdEvents,
      hl, hc]
  · rw [detect_eq]
    simp [nextPassed, basePassed, startEmitted, hl, hc]

/-- C4 witness: the amended theorem at the counterexample input — the
offline step clears viewers and changes nothing else. -/
theorem c4_offline_step_witness :
    (detect ⟨false, none, none, some (PyVal.num 7), []⟩
      ⟨false, none, none, none⟩ []).1 = [] ∧
    (detect ⟨false, none, none, some (PyVal.num 7), []⟩
      ⟨false, none, none, none⟩ []).2 = ⟨false, none, none, none, []⟩ :=
  c4_offline_step ⟨false, none, none, some (PyVal.num 7), []⟩
    ⟨false, none, none, none⟩ [] rfl rfl

theorem livenessEvents_self (b : Bool) : livenessEvents b b = [] := by
  cases b <;> simp [livenessEvents]

theorem titleEvents_detect_self (l : ChannelState) (c : Observation)
    (t : List Int) : titleEvents (detect l c t).2 c = [] := by
  unfold titleEvents
  split
  · next hcond =>
    exfalso
    apply hcond.2.2.2
    have h2 : (detect l c t).2.title = c.title := by
      rw [detect_eq]
      exact pyOr_truthy hcond.2.2.1
    exact h2.symm
  · rfl

theorem categoryEvents_detect_self (l : ChannelState) (c : Observation)
    (t : List Int) : categoryEvents (detect l c t).2 c = [] := by
  unfold categoryEvents
  split
  · next hcond =>
    exfalso
    apply hcond.2.2.2
    have h2 : (detect l c t).2.category = c.category := by
      rw [detect_eq]
      exact pyOr_truthy hcond.2.2.1
    exact h2.symm
  · rfl

theorem basePassed_detect_self (l : ChannelState) (c : Observation)
    (t : List Int) :
    basePassed (detect l c t).2 c = nextPassed l c t := by
  have hlive : (detect l c t).2.is_live = c.is_live := by rw [detect_eq]
  have hpassed : (detect l c t).2.passed_thresholds = nextPassed l c t := by
    rw [detect_eq]
  unfold basePassed startEmitted
  rw [hlive, hpassed]
  cases c.is_live <;> simp

theorem thresholdEvents_detect_self (l : ChannelState) (c : Observation)
    (t : List Int) : thresholdEvents (detect l c t).2 c t = [] := by
  unfold thresholdEvents
  split
  · next hlive2 =>
    cases hv : c.viewers with
    | none => rfl
    | some pv =>
      cases pv with
      | num v =>
        have hnil : toPass t v (basePassed (detect l c t).2 c) = [] := by
          rw [List.eq_nil_iff_forall_not_mem]
          intro th hth
          rw [mem_toPass, basePassed_detect_self] at hth
          exact hth.2.2 (mem_nextPassed_of_ge l c t hlive2 hv hth.1 hth.2.1)
        simp [hnil, sortInts]
      | str s => rfl
  · rfl

/-- C3: the detector is idempotent: running it a second time with the
first call's output state as the new previous state and the same unchanged
observation produces an empty event list. -/
theorem c3_idempotent (l : ChannelState) (c : Observation) (t : List Int) :
    (detect (detect l c t).2 c t).1 = [] := by
  have hlive : (detect l c t).2.is_live = c.is_live := by rw [detect_eq]
  rw [detect_eq ((detect l c t).2) c t]
  show livenessEvents (detect l c t).2.is_live c.is_live ++
      titleEvents (detect l c t).2 c ++ categoryEvents (detect l c t).2 c ++
      thresholdEvents (detect l c t).2 c t = []
  rw [hlive, livenessEvents_self, titleEvents_detect_self,
    categoryEvents_detect_self, thresholdEvents_detect_self]
  rfl

/-- Configuration entry for one streamer, as read from config.yaml; any
field may be missing, and channel id or webhook URL may be the empty
string (falsy in the source's guards). -/
structure Streamer where
  name : Option String
  channel_id : Option String
  webhook_url : Option String
deriving DecidableEq, Repr

/-- The state a channel absent from the store is treated as
(`state.get(streamer_key, {})`: every field missing). -/
def defaultState : ChannelState :=
  ⟨false, none, none, none, []⟩

/-- Lookup in the persisted state map (a Python dict keyed by channel id). -/
def lookupState (cid : String) :
    List (String × ChannelState) → Option ChannelState
  | [] => none
  | (k, v) :: rest => if k = cid then some v else lookupState cid rest

/-- Assignment `state[streamer_key] = new_state` on the state map. -/
def setState (cid : String) (v : ChannelState) :
    List (String × ChannelState) → List (String × ChannelState)
  | [] => [(cid, v)]
  | (k, w) :: rest =>
      if k = cid then (cid, v) :: rest else (k, w) :: setState cid v rest

/-- The body of `process_streamer` after the fetch (lines 246-317), with
the fetched observation passed in and the notification transport
abstracted by a delivery-outcome function `sendOk` (in the source, send
failures are caught, logged and ignored, and the state assignment runs
unconditionally afterwards). Returns the updated state map and the list of
attempted notifications paired with their delivery outcome; no
notification is attempted without a truthy webhook URL. -/
def processStreamer (streamer : Streamer) (thresholds : List Int)
    (state : List (String × ChannelState)) (current : Observation)
    (sendOk : Event → Bool) :
    List (String × ChannelState) × List (Event × Bool) :=
  if pyTruthy streamer.channel_id = true then
    match streamer.channel_id with
    | some cid =>
        let last := (lookupState cid state).getD defaultState
        let r := detect last current thresholds
        let notes :=
          if pyTruthy streamer.webhook_url = true ∧ r.1 ≠ [] then
            r.1.map (fun e => (e, sendOk e))
          else []
        (setState cid r.2 state, notes)
    | none => (state, [])
  else (state, [])

theorem lookupState_setState (cid : String) (v : ChannelState) :
    ∀ m, lookupState cid (setState cid v m) = some v
  | [] => by simp [setState, lookupState]
  | (k, w) :: rest => by
      by_cases h : k = cid <;>
        simp [setState, lookupState, h, lookupState_setState cid v rest]

/-- C10: the state map produced by a run depends only on the previous
map, the observation and the thresholds: it is identical for two streamer
configurations sharing a channel id whatever their webhook URLs and
whatever every send's outcome (in particular when every send fails), and
for a truthy channel id the stored entry is exactly the detector's next
state. -/
theorem c10_state_independent_of_delivery (s1 s2 : Streamer)
    (t : List Int) (m : List (String × ChannelState)) (c : Observation)
    (f1 f2 : Event → Bool) (hid : s1.channel_id = s2.channel_id) :
    (processStreamer s1 t m c f1).1 = (processStreamer s2 t m c f2).1 ∧
    (∀ cid, s1.channel_id = some cid → cid ≠ "" →
      lookupState cid (processStreamer s1 t m c f1).1 =
        some (detect ((lookupState cid m).getD defaultState) c t).2) := by
  constructor
  · unfold processStreamer
    rw [hid]
    split
    · split <;> rfl
    · rfl
  · intro cid hcid hne
    simp [processStreamer, hcid, pyTruthy, hne, lookupState_setState]

/-- C10 witness: same channel id, one config without webhook and all sends
failing versus one with a webhook and all sends succeeding, produce the
same stored map and the stored entry is the detector output. -/
theorem c10_state_independent_of_delivery_witness :
    (processStreamer ⟨some "Mbeung", some "chan1", none⟩ [100] []
        ⟨true, some "T", none, some (PyVal.num 150)⟩ (fun _ => false)).1 =
      (processStreamer ⟨some "Mbeung", some "chan1", some "https://hook"⟩
        [100] [] ⟨true, some "T", none, some (PyVal.num 150)⟩
        (fun _ => true)).1 ∧
    lookupState "chan1"
        (processStreamer ⟨some "Mbeung", some "chan1", none⟩ [100] []
          ⟨true, some "T", none, some (PyVal.num 150)⟩ (fun _ => false)).1 =
      some (detect defaultState
        ⟨true, some "T", none, some (PyVal.num 150)⟩ [100]).2 :=
  ⟨(c10_state_independent_of_delivery ⟨some "Mbeung", some "chan1", none⟩
      ⟨some "Mbeung", some "chan1", some "https://hook"⟩ [100] []
      ⟨true, some "T", none, some (PyVal.num 150)⟩
      (fun _ => false) (fun _ => true) rfl).1,
   (c10_state_independent_of_delivery ⟨some "Mbeung", some "chan1", none⟩
      ⟨some "Mbeung", some "chan1", some "https://hook"⟩ [100] []
      ⟨true, some "T", none, some (PyVal.num 150)⟩
      (fun _ => false) (fun _ => true) rfl).2 "chan1" rfl (by decide)⟩

end ChzzkWatcher
